import Mathlib

/-!
Verification of the TripCanvas trip-search aggregation and refinement engine
(`src/server/main.py`) against its specification.

Shallow embedding conventions:
* Python `float` currency amounts, ratings and coordinates are modelled by `ℚ`;
  every arithmetic operation the engine performs on them (comparison,
  subtraction, multiplication by small integers, `max`) is exact in IEEE
  doubles over the values involved, so `ℚ` is a faithful model.
* Python `Optional[T]` is `Option T`; Python truthiness of optional strings and
  numbers is modelled explicitly (`truthyS`, `pyTruthyQ`).
* The Amadeus provider gateway is abstracted as an `Env` of oracles that return
  the already-formatted records the orchestrator consumes; the orchestrator
  additionally records a `FetchEvent` trace naming every provider call it
  issues, so "no fetch happens" claims are statable.
* The global `search_store` dict is modelled as a function
  `String → Option SearchResponse`; `uuid4()` request ids and
  `datetime.now(timezone.utc)` timestamps are explicit parameters.
* Calendar dates (`datetime.date`) are modelled by their proleptic-Gregorian
  ordinals in `ℤ` (`date.toordinal`); `timedelta(days=1)` is `+ 1` and date
  comparison is the integer order, both exact under that bijection.
-/

/-- Money model (main.py `Money`): a decimal amount and a 3-letter currency. -/
structure Money where
  amount : ℚ
  currency : String
deriving DecidableEq, Repr

/-- Flight segment (main.py `Segment`); the source fields `from` / `to` are
Lean keywords and are written `from_` / `to_`. -/
structure Segment where
  from_ : String
  to_ : String
  depart_at : String
  arrive_at : String
  carrier : String
  flight_number : Option String
deriving DecidableEq, Repr

/-- Flight offer (main.py `FlightOffer`); the `provider` and `booking_mode`
literal types are modelled as strings. -/
structure FlightOffer where
  id : String
  provider : String
  total_price : Money
  segments : List Segment
  baggage_summary : Option String
  fare_rules_summary : Option String
  refundable : Option Bool
  booking_mode : String
  booking_url : Option String
  score : ℚ
deriving DecidableEq, Repr

/-- Hotel geo info (main.py `HotelLocation`). -/
structure HotelLocation where
  lat : Option ℚ
  lng : Option ℚ
  area : Option String
deriving DecidableEq, Repr

/-- Hotel offer (main.py `HotelOffer`). -/
structure HotelOffer where
  id : String
  provider : String
  hotel_name : String
  star_rating : Option ℚ
  total_price : Money
  nightly_price : Option Money
  cancellation_policy_summary : Option String
  refundable : Option Bool
  location : Option HotelLocation
  amenities : List String
  booking_url : Option String
  score : ℚ
deriving DecidableEq, Repr

/-- Activity offer (main.py `ActivityOffer`). -/
structure ActivityOffer where
  id : String
  provider : String
  title : String
  duration_minutes : Option ℤ
  total_price : Money
  rating : Option ℚ
  rating_count : Option ℤ
  cancellation_policy_summary : Option String
  meeting_point : Option String
  booking_url : Option String
  score : ℚ
deriving DecidableEq, Repr

/-- Aggregated search result (main.py `SearchResponse`). -/
structure SearchResponse where
  request_id : String
  freshness_ts : String
  flights : List FlightOffer
  hotels : List HotelOffer
  activities : List ActivityOffer
  warnings : List String
deriving DecidableEq, Repr

/-- Refinement filters (main.py `RefineFilters`). -/
structure RefineFilters where
  max_price : Option Money
  airline_whitelist : List String
  hotel_stars_min : Option ℤ
  refundable_only : Option Bool
  activity_categories : List String
deriving DecidableEq, Repr

/-- The pydantic default `RefineFilters()`: every field absent or empty. -/
def emptyRefineFilters : RefineFilters :=
  { max_price := none
  , airline_whitelist := []
  , hotel_stars_min := none
  , refundable_only := none
  , activity_categories := [] }

/-- Refine request (main.py `RefineRequest`). -/
structure RefineRequest where
  request_id : String
  filters : RefineFilters
deriving DecidableEq, Repr

/-- Destination / origin description (main.py `LocationModel`). -/
structure LocationModel where
  iata : Option String
  city : Option String
  country : Option String
  lat : Option ℚ
  lng : Option ℚ
deriving DecidableEq, Repr

/-- Travel date range (main.py `DateRange`), kept as the raw strings. -/
structure DateRange where
  start_date : String
  end_date : String
deriving DecidableEq, Repr

/-- Traveler counts (main.py `Traveler`). -/
structure Traveler where
  adults : ℤ
  children_ages : List ℤ
deriving DecidableEq, Repr

/-- Trip search request (main.py `TripRequest`); `budget` and `preferences`
are carried but never read by the engine. -/
structure TripRequest where
  origin : LocationModel
  destination : LocationModel
  dates : DateRange
  travelers : Traveler
  budget : Option Money
deriving DecidableEq, Repr

/-- The session store `search_store : Dict[str, SearchResponse]`, as a map. -/
def Store : Type := String → Option SearchResponse

/-- Dictionary write `search_store[k] = v`. -/
def storeInsert (s : Store) (k : String) (v : SearchResponse) : Store :=
  fun q => if q = k then some v else s q

/-- The store at process start: empty. -/
def emptyStore : Store := fun _ => none

/-- Python truthiness for an optional string: `None` and `""` are falsy. -/
def truthyS : Option String → Option String
  | none => none
  | some s => if s = "" then none else some s

/-- Python truthiness of an optional float: `None` and `0.0` are falsy. -/
def pyTruthyQ : Option ℚ → Bool
  | none => false
  | some v => decide (v ≠ 0)

/-- Python `a or b` for an optional string `a` and a string default `b`. -/
def pyOrD (a : Option String) (b : String) : String :=
  match truthyS a with
  | some s => s
  | none => b

/-- Provider-call trace entries, one per upstream Amadeus call the
orchestrator can issue. -/
inductive FetchEvent where
  | locationLookup (keyword : String)
  | flightFetch (origin destination date : String)
  | hotelFetch (cityCode checkIn checkOut : String) (adults : ℤ)
  | activityFetch (lat lng : ℚ)
deriving DecidableEq, Repr

/-- True exactly on the three offer-provider fetches (flights, hotels,
activities); the location lookup is not an offer fetch. -/
def FetchEvent.isProviderFetch : FetchEvent → Bool
  | .locationLookup _ => false
  | _ => true

/-- The refinement endpoint `refine_results` (main.py lines 1049-1081).
Returns the response, the updated store, and the (always empty) provider-call
trace: the handler body contains no provider call. `now` is the value
`utc_now_iso()` returns during the call. -/
def refine_results (store : Store) (request : RefineRequest) (now : String) :
    SearchResponse × Store × List FetchEvent :=
  match store request.request_id with
  | none =>
    ({ request_id := request.request_id
     , freshness_ts := now
     , flights := []
     , hotels := []
     , activities := []
     , warnings := ["Unknown request_id. Run /v1/search_travel first."] },
     store, [])
  | some existing =>
    let max_price : Option ℚ := request.filters.max_price.map Money.amount
    let flights :=
      match max_price with
      | none => existing.flights
      | some p => existing.flights.filter (fun f => decide (f.total_price.amount ≤ p))
    let hotels :=
      match max_price with
      | none => existing.hotels
      | some p => existing.hotels.filter (fun h => decide (h.total_price.amount ≤ p))
    let activities :=
      match max_price with
      | none => existing.activities
      | some p => existing.activities.filter (fun a => decide (a.total_price.amount ≤ p))
    let refined : SearchResponse :=
      { request_id := existing.request_id
      , freshness_ts := now
      , flights := flights
      , hotels := hotels
      , activities := activities
      , warnings := existing.warnings }
    (refined, storeInsert store request.request_id refined, [])

/-- Models `_as_float(value, fallback=0.0)` applied to a raw provider value:
`none` stands for an absent or unparsable value (the `TypeError`/`ValueError`
branch returns the fallback `0.0`), `some q` for a value parsing to `q`. -/
def as_float (value : Option ℚ) : ℚ := value.getD 0

/-- A raw Amadeus hotel record as read by `_format_hotel_offers`
(main.py lines 204-229), with the numeric fields already at the
post-`float`-parse level. -/
structure AmadeusHotelEntry where
  name : Option String
  price_total : Option ℚ
  currency : Option String
  nightly_base : Option ℚ
  rating : Option ℚ
  latitude : Option ℚ
  longitude : Option ℚ
  amenities : List String
  cancellation : Option String
  booking_url : Option String
deriving DecidableEq, Repr

/-- A formatted hotel record, the dict `_format_hotel_offers` appends
(main.py lines 215-228). -/
structure RawHotel where
  name : String
  total_amount : ℚ
  nightly_amount : Option ℚ
  currency : String
  rating : ℚ
  latitude : Option ℚ
  longitude : Option ℚ
  amenities : List String
  cancellation : Option String
  booking_url : Option String
deriving DecidableEq, Repr

/-- One step of `_format_hotel_offers` (main.py lines 206-228): extract the
best offer's price, the average nightly base (absent when 0), the star
rating (defaulted to 0 by `_as_float`), and presentation fields. -/
def format_hotel_offer (h : AmadeusHotelEntry) : RawHotel :=
  let total := as_float h.price_total
  let currency := (pyOrD h.currency "USD").toUpper
  let nightly := as_float h.nightly_base
  { name := pyOrD h.name "Unknown Hotel"
  , total_amount := total
  , nightly_amount := if nightly > 0 then some nightly else none
  , currency := currency
  , rating := as_float h.rating
  , latitude := h.latitude
  , longitude := h.longitude
  , amenities := h.amenities.take 8
  , cancellation := h.cancellation
  , booking_url := h.booking_url }

/-- `_format_hotel_offers` caps the raw list to the first 5 offers. -/
def format_hotel_offers (raw_offers : List AmadeusHotelEntry) : List RawHotel :=
  (raw_offers.take 5).map format_hotel_offer

/-- A raw Amadeus activity record as read by `get_activities`
(main.py lines 274-293). -/
structure AmadeusActivityEntry where
  name : Option String
  amount : Option ℚ
  currencyCode : Option String
  bookingLink : Option String
  rating : Option ℚ
  shortDescription : Option String
  latitude : Option ℚ
  longitude : Option ℚ
deriving DecidableEq, Repr

/-- A formatted activity record, the dict `get_activities` appends
(main.py lines 282-293). -/
structure RawActivity where
  title : String
  amount : ℚ
  currency : String
  booking_url : Option String
  rating : ℚ
  description : Option String
  latitude : Option ℚ
  longitude : Option ℚ
deriving DecidableEq, Repr

/-- One step of `get_activities` formatting (main.py lines 282-293). -/
def format_activity (a : AmadeusActivityEntry) : RawActivity :=
  { title := pyOrD a.name "Local activity"
  , amount := as_float a.amount
  , currency := (pyOrD a.currencyCode "USD").toUpper
  , booking_url := a.bookingLink
  , rating := as_float a.rating
  , description := a.shortDescription
  , latitude := a.latitude
  , longitude := a.longitude }

/-- `get_activities` caps the raw list to the first 8 records. -/
def format_activities (raw : List AmadeusActivityEntry) : List RawActivity :=
  (raw.take 8).map format_activity

/-- A formatted flight record, the dict `search_flight_offers` appends
(main.py lines 365-373). -/
structure RawFlight where
  price_total : ℚ
  currency : String
  segments : List Segment
  refundable : Option Bool
  fare_rules_summary : Option String
deriving DecidableEq, Repr

/-- The date-repair step of `get_hotels` (main.py lines 238-240): Amadeus
requires check-out strictly after check-in, so a check-out at or before the
check-in is silently advanced to check-in plus one day. Dates are
proleptic-Gregorian ordinals; the function is total, so no error path
exists. -/
def hotel_effective_check_out (check_in check_out : ℤ) : ℤ :=
  if check_out ≤ check_in then check_in + 1 else check_out

/-- Result of `get_location` (main.py lines 310-315). -/
structure LocationInfo where
  name : Option String
  iataCode : Option String
  latitude : Option ℚ
  longitude : Option ℚ
deriving DecidableEq, Repr

/-- The provider gateway, as the oracle environment `search_travel` consumes:
each field returns what the corresponding (already formatted, already
soft-failed) fetch helper returns. A failed upstream call is modelled by
`none` / `[]`, exactly the helpers' degraded results. -/
structure Env where
  getLocation : String → Option LocationInfo
  searchFlightOffers : String → String → String → List RawFlight
  getHotels : String → String → String → ℤ → List RawHotel
  getActivities : ℚ → ℚ → List RawActivity

/-- The static city→IATA fallback table `CITY_IATA_FALLBACKS`
(main.py lines 739-750), keyed by lowercase city name. -/
def CITY_IATA_FALLBACKS (key : String) : Option String :=
  if key = "tokyo" then some "TYO"
  else if key = "new york" then some "NYC"
  else if key = "london" then some "LON"
  else if key = "paris" then some "PAR"
  else if key = "los angeles" then some "LAX"
  else if key = "san francisco" then some "SFO"
  else if key = "singapore" then some "SIN"
  else if key = "dubai" then some "DXB"
  else if key = "rome" then some "ROM"
  else if key = "milan" then some "MIL"
  else none

/-- Python `str.lower()`, modelled character-wise. -/
def pyLower (s : String) : String := String.mk (s.data.map Char.toLower)

/-- Python `str.strip()`: drop whitespace from both ends. -/
def pyStrip (s : String) : String :=
  String.mk (((s.data.dropWhile Char.isWhitespace).reverse.dropWhile
      Char.isWhitespace).reverse)

/-- `_fallback_iata_for_city` (main.py lines 786-789): falsy input resolves
to nothing, otherwise the stripped lowercased name is looked up. -/
def fallback_iata_for_city (city_name : String) : Option String :=
  if city_name = "" then none
  else CITY_IATA_FALLBACKS (pyLower (pyStrip city_name))

/-- `_safe_iata` (main.py lines 780-783). -/
def safe_iata (location : LocationModel) (fallback : String) : String :=
  match truthyS location.iata with
  | some s => s.toUpper
  | none => fallback

/-- The destination display name `search_travel` computes (main.py line 901):
`request.destination.city or destination_iata or "Destination"`. -/
def destinationName (request : TripRequest) : String :=
  pyOrD request.destination.city
    (pyOrD ((truthyS request.destination.iata).map String.toUpper) "Destination")

/-- The static-table tail of destination resolution (main.py lines 909-918):
on a fallback hit, warn that the fallback was used; otherwise warn that no
IATA could be resolved. -/
def resolveFallback (destination_name : String) (events : List FetchEvent) :
    Option String × List String × List FetchEvent :=
  match fallback_iata_for_city destination_name with
  | some code =>
    (some code,
     ["Resolved destination \x27" ++ destination_name ++
        "\x27 using fallback IATA \x27" ++ code ++ "\x27."],
     events)
  | none =>
    (none,
     ["Could not resolve destination IATA for \x27" ++ destination_name ++
        "\x27. Set destination.iata explicitly for better provider matches."],
     events)

/-- Destination resolution (main.py lines 899-918): a supplied IATA code is
used as-is; otherwise one live location lookup is tried, and on a truthy
`iataCode` it is uppercased and used, else the static table decides. Returns
the code, the warnings produced, and the lookup trace. -/
def resolveDestination (env : Env) (destination_iata : Option String)
    (destination_name : String) : Option String × List String × List FetchEvent :=
  match destination_iata with
  | some code => (some code, [], [])
  | none =>
    let events := [FetchEvent.locationLookup destination_name]
    match env.getLocation destination_name with
    | some loc =>
      match truthyS loc.iataCode with
      | some code => (some code.toUpper, [], events)
      | none => resolveFallback destination_name events
    | none => resolveFallback destination_name events

/-- Normalization and scoring of one raw flight (main.py lines 942-957):
rank position `idx` is the offer's 0-based index in upstream order. -/
def normalizeFlight (request_id : String) (idx : ℕ) (offer : RawFlight) :
    FlightOffer :=
  { id := "flight_" ++ request_id ++ "_" ++ toString idx
  , provider := "amadeus"
  , total_price := { amount := offer.price_total, currency := offer.currency }
  , segments := offer.segments
  , baggage_summary := none
  , fare_rules_summary := offer.fare_rules_summary
  , refundable := offer.refundable
  , booking_mode := "redirect"
  , booking_url := none
  , score := max 1 (95 - 5 * (idx : ℚ)) }

/-- Normalization and scoring of one raw hotel (main.py lines 968-994):
a zero star rating is normalized to absent, a truthy star rating scores
`rating × 20`, otherwise the rank-decay `max(1, 88 − 4×idx)` applies. -/
def normalizeHotel (request_id destination_name : String) (idx : ℕ)
    (hotel : RawHotel) : HotelOffer :=
  let star_rating : Option ℚ := if hotel.rating > 0 then some hotel.rating else none
  { id := "hotel_" ++ request_id ++ "_" ++ toString idx
  , provider := "expedia_rapid"
  , hotel_name := hotel.name
  , star_rating := star_rating
  , total_price := { amount := hotel.total_amount, currency := hotel.currency }
  , nightly_price := hotel.nightly_amount.map
      (fun n => { amount := n, currency := hotel.currency })
  , cancellation_policy_summary := hotel.cancellation
  , refundable := some ((truthyS hotel.cancellation).isSome)
  , location := some { lat := hotel.latitude, lng := hotel.longitude
                     , area := some destination_name }
  , amenities := hotel.amenities
  , booking_url := hotel.booking_url
  , score := if pyTruthyQ star_rating then star_rating.getD 0 * 20
             else max 1 (88 - 4 * (idx : ℚ)) }

/-- Normalization and scoring of one raw activity (main.py lines 1012-1027):
a zero rating is normalized to absent, a truthy rating scores `rating × 20`,
otherwise the rank-decay `max(1, 86 − 3×idx)` applies. -/
def normalizeActivity (request_id destination_name : String) (idx : ℕ)
    (activity : RawActivity) : ActivityOffer :=
  let rating : Option ℚ := if activity.rating > 0 then some activity.rating else none
  { id := "activity_" ++ request_id ++ "_" ++ toString idx
  , provider := "viator"
  , title := activity.title
  , duration_minutes := none
  , total_price := { amount := activity.amount, currency := activity.currency }
  , rating := rating
  , rating_count := none
  , cancellation_policy_summary := activity.description
  , meeting_point := some destination_name
  , booking_url := activity.booking_url
  , score := if pyTruthyQ rating then rating.getD 0 * 20
             else max 1 (86 - 3 * (idx : ℚ)) }

/-- The `for idx, offer in enumerate(flights_raw)` loop (main.py line 942). -/
def normalizeFlights (request_id : String) (raw : List RawFlight) :
    List FlightOffer :=
  raw.enum.map (fun p => normalizeFlight request_id p.1 p.2)

/-- The `for idx, hotel in enumerate(hotels_raw)` loop (main.py line 968). -/
def normalizeHotels (request_id destination_name : String)
    (raw : List RawHotel) : List HotelOffer :=
  raw.enum.map (fun p => normalizeHotel request_id destination_name p.1 p.2)

/-- The `for idx, activity in enumerate(activities_raw)` loop
(main.py line 1012). -/
def normalizeActivities (request_id destination_name : String)
    (raw : List RawActivity) : List ActivityOffer :=
  raw.enum.map (fun p => normalizeActivity request_id destination_name p.1 p.2)

/-- The activity-coordinate step of `search_travel` (main.py lines 999-1005):
use the request coordinates, but when either is absent, retry the location
lookup and take its coordinates (whatever they are, including absent) when
the lookup answers. Also returns the lookup trace of this step. -/
def searchCoords (env : Env) (request : TripRequest) :
    (Option ℚ × Option ℚ) × List FetchEvent :=
  if request.destination.lat.isNone || request.destination.lng.isNone then
    match env.getLocation (destinationName request) with
    | some loc => ((loc.latitude, loc.longitude),
                   [FetchEvent.locationLookup (destinationName request)])
    | none => ((request.destination.lat, request.destination.lng),
               [FetchEvent.locationLookup (destinationName request)])
  else ((request.destination.lat, request.destination.lng), [])

/-- The activity fetch step of `search_travel` (main.py lines 1007-1009):
fetch only when both coordinates are present, else keep the empty list.
Also returns the fetch trace of this step. -/
def searchActivitiesRaw (env : Env) (request : TripRequest) :
    List RawActivity × List FetchEvent :=
  match (searchCoords env request).1 with
  | (some la, some lo) =>
    (env.getActivities la lo, [FetchEvent.activityFetch la lo])
  | _ => ([], [])

/-- The aggregation orchestrator `search_travel` (main.py lines 896-1046).
`request_id` is the fresh `uuid4()` and `now` the `utc_now_iso()` value of
the call. Returns the response, the store after `search_store[request_id] =
response`, and the trace of upstream calls in issue order. -/
def search_travel (env : Env) (store : Store) (request_id now : String)
    (request : TripRequest) : SearchResponse × Store × List FetchEvent :=
  let destination_iata0 := (truthyS request.destination.iata).map String.toUpper
  let origin_iata := safe_iata request.origin "LON"
  let destination_name := destinationName request
  let rd := resolveDestination env destination_iata0 destination_name
  match rd.1 with
  | none =>
    let response : SearchResponse :=
      { request_id := request_id
      , freshness_ts := now
      , flights := []
      , hotels := []
      , activities := []
      , warnings := rd.2.1 }
    (response, storeInsert store request_id response, rd.2.2)
  | some diata =>
    let flights_raw := env.searchFlightOffers origin_iata diata request.dates.start_date
    let flights := normalizeFlights request_id flights_raw
    let warnings1 := rd.2.1 ++
      (if flights.isEmpty
       then ["No live flight offers were returned from Amadeus for this query."]
       else [])
    let hotels_raw := env.getHotels diata request.dates.start_date
      request.dates.end_date request.travelers.adults
    let hotels := normalizeHotels request_id destination_name hotels_raw
    let warnings2 := warnings1 ++
      (if hotels.isEmpty
       then ["No live hotel offers were returned from Amadeus for this query."]
       else [])
    let coordsEv := searchCoords env request
    let activitiesEv := searchActivitiesRaw env request
    let activities := normalizeActivities request_id destination_name activitiesEv.1
    let warnings3 := warnings2 ++
      (if activities.isEmpty
       then ["No live activities were returned from Amadeus for this query."]
       else [])
    let response : SearchResponse :=
      { request_id := request_id
      , freshness_ts := now
      , flights := flights
      , hotels := hotels
      , activities := activities
      , warnings := warnings3 }
    (response, storeInsert store request_id response,
      rd.2.2 ++
        [FetchEvent.flightFetch origin_iata diata request.dates.start_date,
         FetchEvent.hotelFetch diata request.dates.start_date
           request.dates.end_date request.travelers.adults] ++
        coordsEv.2 ++ activitiesEv.2)

/-- One itinerary day of the `plan_trip` handler (main.py lines 664-667). -/
structure DayPlan where
  day : ℕ
  activities : List String
deriving DecidableEq, Repr

/-- The placeholder string for an exhausted activity slot
(main.py lines 658-660); `slot` is 0-based, displayed 1-based. -/
def placeholderActivity (destination_name : String) (day slot : ℕ) : String :=
  "Self-guided exploration in " ++ destination_name ++ " (Day " ++
    toString day ++ ", stop " ++ toString (slot + 1) ++ ")"

/-- The inner slot step of the itinerary loop (main.py lines 653-660): take
the pool element at the cursor and advance it, or emit the placeholder and
leave the cursor. Returns the slot text and the new cursor. -/
def takeSlot (destination_name : String) (pool : List String)
    (day slot cursor : ℕ) : String × ℕ :=
  if h : cursor < pool.length then (pool.get ⟨cursor, h⟩, cursor + 1)
  else (placeholderActivity destination_name day slot, cursor)

/-- One day of the itinerary loop (main.py lines 651-667): two slots, then
the fixed dinner entry. Returns the day's activity list and the new cursor. -/
def buildDay (destination_name : String) (pool : List String)
    (day cursor : ℕ) : List String × ℕ :=
  let s0 := takeSlot destination_name pool day 0 cursor
  let s1 := takeSlot destination_name pool day 1 s0.2
  ([s0.1, s1.1, "Dinner at a local restaurant"], s1.2)

/-- The `for i in range(1, days + 1)` itinerary loop (main.py lines 650-667),
structured over the remaining day count with the 1-based day number `i` and
the pool cursor threaded through. -/
def buildItineraryGo (destination_name : String) (pool : List String) :
    ℕ → ℕ → ℕ → List DayPlan
  | 0, _, _ => []
  | n + 1, i, c =>
    { day := i, activities := (buildDay destination_name pool i c).1 } ::
      buildItineraryGo destination_name pool n (i + 1) (buildDay destination_name pool i c).2

/-- The whole itinerary build (main.py lines 650-667): days 1..N, cursor
starting at 0 over the (already deduplicated) activity pool. -/
def buildItinerary (destination_name : String) (pool : List String)
    (days : ℕ) : List DayPlan :=
  buildItineraryGo destination_name pool days 1 0

/-- The value a slot at overall cursor position `cursor` receives: the pool
element there when the pool is not yet exhausted, else the placeholder for
the given day and slot index. -/
def itinerarySlot (destination_name : String) (pool : List String)
    (day slot cursor : ℕ) : String :=
  if h : cursor < pool.length then pool.get ⟨cursor, h⟩
  else placeholderActivity destination_name day slot

/-- Default flight offer used with `List.getD`. -/
def dummyFlight : FlightOffer :=
  { id := ""
  , provider := "amadeus"
  , total_price := { amount := 0, currency := "USD" }
  , segments := []
  , baggage_summary := none
  , fare_rules_summary := none
  , refundable := none
  , booking_mode := "redirect"
  , booking_url := none
  , score := 0 }

/-- Default hotel offer used with `List.getD`. -/
def dummyHotel : HotelOffer :=
  { id := ""
  , provider := "expedia_rapid"
  , hotel_name := ""
  , star_rating := none
  , total_price := { amount := 0, currency := "USD" }
  , nightly_price := none
  , cancellation_policy_summary := none
  , refundable := none
  , location := none
  , amenities := []
  , booking_url := none
  , score := 0 }

/-- Default activity offer used with `List.getD`. -/
def dummyActivity : ActivityOffer :=
  { id := ""
  , provider := "viator"
  , title := ""
  , duration_minutes := none
  , total_price := { amount := 0, currency := "USD" }
  , rating := none
  , rating_count := none
  , cancellation_policy_summary := none
  , meeting_point := none
  , booking_url := none
  , score := 0 }

/-- Concrete flight offer fixture. -/
def mkFlight (idv : String) (p : ℚ) : FlightOffer :=
  { dummyFlight with id := idv, total_price := { amount := p, currency := "USD" } }

/-- Concrete hotel offer fixture. -/
def mkHotel (idv : String) (p : ℚ) : HotelOffer :=
  { dummyHotel with id := idv, total_price := { amount := p, currency := "USD" } }

/-- Concrete activity offer fixture. -/
def mkActivity (idv : String) (p : ℚ) : ActivityOffer :=
  { dummyActivity with id := idv, total_price := { amount := p, currency := "USD" } }

/-- A stored response fixture with offers at several price points. -/
def respStored : SearchResponse :=
  { request_id := "r1"
  , freshness_ts := "2024-01-01T00:00:00+00:00"
  , flights := [mkFlight "f1" 100, mkFlight "f2" 50]
  , hotels := [mkHotel "h1" 30]
  , activities := [mkActivity "a1" 70]
  , warnings := ["w1"] }

/-- A store holding `respStored` under `"r1"`. -/
def storeStored : Store := storeInsert emptyStore "r1" respStored

/-- A refine request against `"r1"` with a 60-unit price ceiling. -/
def refineReq60 : RefineRequest :=
  { request_id := "r1"
  , filters := { emptyRefineFilters with
                   max_price := some { amount := 60, currency := "USD" } } }

/-- On a known id, refine writes the refined response back under the same
key. -/
theorem refine_store_update (s : Store) (req : RefineRequest) (now : String)
    (r : SearchResponse) (h : s req.request_id = some r) :
    (refine_results s req now).2.1 req.request_id =
      some (refine_results s req now).1 := by
  cases hp : req.filters.max_price <;>
    simp [refine_results, h, hp, storeInsert]

/-- On a known id, the refined flight list is a sublist of the stored one. -/
theorem refine_flights_sublist (s : Store) (req : RefineRequest) (now : String)
    (r : SearchResponse) (h : s req.request_id = some r) :
    (refine_results s req now).1.flights.Sublist r.flights := by
  cases hp : req.filters.max_price <;>
    simp [refine_results, h, hp, List.filter_sublist]

/-- On a known id, the refined hotel list is a sublist of the stored one. -/
theorem refine_hotels_sublist (s : Store) (req : RefineRequest) (now : String)
    (r : SearchResponse) (h : s req.request_id = some r) :
    (refine_results s req now).1.hotels.Sublist r.hotels := by
  cases hp : req.filters.max_price <;>
    simp [refine_results, h, hp, List.filter_sublist]

/-- On a known id, the refined activity list is a sublist of the stored
one. -/
theorem refine_activities_sublist (s : Store) (req : RefineRequest)
    (now : String) (r : SearchResponse) (h : s req.request_id = some r) :
    (refine_results s req now).1.activities.Sublist r.activities := by
  cases hp : req.filters.max_price <;>
    simp [refine_results, h, hp, List.filter_sublist]

/-- C1 (corrected claim, as stated): at a concrete unknown id the warning the
code emits is not the string "Unknown request_id. Run search first." the
claim requires, so the claim fails on the code. -/
theorem C1_counterexample :
    (refine_results emptyStore
        { request_id := "missing", filters := emptyRefineFilters } "t").1.warnings
      ≠ ["Unknown request_id. Run search first."] := by
  decide

/-- C1 (amended): a refine call whose request id is not in the session store
returns empty flight, hotel and activity lists and exactly the single warning
"Unknown request_id. Run /v1/search_travel first.". -/
theorem C1_unknown_request_id (s : Store) (req : RefineRequest) (now : String)
    (h : s req.request_id = none) :
    (refine_results s req now).1.flights = [] ∧
    (refine_results s req now).1.hotels = [] ∧
    (refine_results s req now).1.activities = [] ∧
    (refine_results s req now).1.warnings =
      ["Unknown request_id. Run /v1/search_travel first."] := by
  simp [refine_results, h]

/-- C1 witness: the amended statement holds at a concrete unknown id. -/
theorem C1_unknown_request_id_witness :
    emptyStore "missing" = none ∧
    ((refine_results emptyStore
        { request_id := "missing", filters := emptyRefineFilters } "t").1.flights = [] ∧
     (refine_results emptyStore
        { request_id := "missing", filters := emptyRefineFilters } "t").1.hotels = [] ∧
     (refine_results emptyStore
        { request_id := "missing", filters := emptyRefineFilters } "t").1.activities = [] ∧
     (refine_results emptyStore
        { request_id := "missing", filters := emptyRefineFilters } "t").1.warnings =
       ["Unknown request_id. Run /v1/search_travel first."]) :=
  ⟨rfl, C1_unknown_request_id emptyStore
    { request_id := "missing", filters := emptyRefineFilters } "t" rfl⟩

/-- C2 (corrected claim, as stated): refine with no filters stamps a fresh
`freshness_ts`, so at a concrete stored response and a different call time
the returned response is not equal to the stored one. -/
theorem C2_counterexample :
    storeStored "r1" = some respStored ∧
    (refine_results storeStored
        { request_id := "r1", filters := emptyRefineFilters }
        "2024-06-01T00:00:00+00:00").1 ≠ respStored := by
  exact ⟨by decide, by decide⟩

/-- C2 (amended): refine on a stored id with the empty filter set returns
exactly the stored response with only `freshness_ts` replaced by the call
time. -/
theorem C2_empty_filters (s : Store) (req : RefineRequest) (now : String)
    (r : SearchResponse) (h : s req.request_id = some r)
    (hf : req.filters = emptyRefineFilters) :
    (refine_results s req now).1 = { r with freshness_ts := now } := by
  simp [refine_results, h, hf, emptyRefineFilters]

/-- C2 witness: the amended statement holds at a concrete stored response. -/
theorem C2_empty_filters_witness :
    storeStored "r1" = some respStored ∧
    (refine_results storeStored
        { request_id := "r1", filters := emptyRefineFilters }
        "2024-06-01T00:00:00+00:00").1 =
      { respStored with freshness_ts := "2024-06-01T00:00:00+00:00" } :=
  ⟨by decide,
   C2_empty_filters storeStored
     { request_id := "r1", filters := emptyRefineFilters }
     "2024-06-01T00:00:00+00:00" respStored (by decide) rfl⟩

/-- C3: refine with a max-price ceiling returns, for each of the three offer
kinds, an order-preserving sublist of the stored list in which every offer's
total price is at most the ceiling. -/
theorem C3_max_price_filter (s : Store) (req : RefineRequest) (now : String)
    (r : SearchResponse) (m : Money) (h : s req.request_id = some r)
    (hp : req.filters.max_price = some m) :
    ((refine_results s req now).1.flights.Sublist r.flights ∧
      ∀ f ∈ (refine_results s req now).1.flights, f.total_price.amount ≤ m.amount) ∧
    ((refine_results s req now).1.hotels.Sublist r.hotels ∧
      ∀ o ∈ (refine_results s req now).1.hotels, o.total_price.amount ≤ m.amount) ∧
    ((refine_results s req now).1.activities.Sublist r.activities ∧
      ∀ a ∈ (refine_results s req now).1.activities, a.total_price.amount ≤ m.amount) := by
  refine ⟨⟨refine_flights_sublist s req now r h, ?_⟩,
          ⟨refine_hotels_sublist s req now r h, ?_⟩,
          ⟨refine_activities_sublist s req now r h, ?_⟩⟩ <;>
    simp [refine_results, h, hp, List.mem_filter]

/-- C3 witness: at the concrete stored response and a 60-unit ceiling the
property holds (the 100-unit flight and the 70-unit activity drop out). -/
theorem C3_max_price_filter_witness :
    storeStored "r1" = some respStored ∧
    refineReq60.filters.max_price = some { amount := 60, currency := "USD" } ∧
    (((refine_results storeStored refineReq60 "t").1.flights.Sublist respStored.flights ∧
       ∀ f ∈ (refine_results storeStored refineReq60 "t").1.flights,
         f.total_price.amount ≤ (Money.mk 60 "USD").amount) ∧
     ((refine_results storeStored refineReq60 "t").1.hotels.Sublist respStored.hotels ∧
       ∀ o ∈ (refine_results storeStored refineReq60 "t").1.hotels,
         o.total_price.amount ≤ (Money.mk 60 "USD").amount) ∧
     ((refine_results storeStored refineReq60 "t").1.activities.Sublist respStored.activities ∧
       ∀ a ∈ (refine_results storeStored refineReq60 "t").1.activities,
         a.total_price.amount ≤ (Money.mk 60 "USD").amount)) :=
  ⟨by decide, rfl,
   C3_max_price_filter storeStored refineReq60 "t" respStored
     { amount := 60, currency := "USD" } (by decide) rfl⟩

/-- C4: refine on a known id preserves the stored response's request id and
warnings, re-stores the returned response under the same key, and performs no
provider fetch (its provider-call trace is empty); only the offer lists and
the freshness timestamp can differ. -/
theorem C4_frame (s : Store) (req : RefineRequest) (now : String)
    (r : SearchResponse) (h : s req.request_id = some r) :
    (refine_results s req now).1.request_id = r.request_id ∧
    (refine_results s req now).1.warnings = r.warnings ∧
    (refine_results s req now).2.1 req.request_id =
      some (refine_results s req now).1 ∧
    (refine_results s req now).2.2 = [] := by
  refine ⟨?_, ?_, refine_store_update s req now r h, ?_⟩ <;>
    cases hp : req.filters.max_price <;>
    simp [refine_results, h, hp]

/-- C4 witness: the frame property holds at a concrete stored response and a
price-filtering refine call. -/
theorem C4_frame_witness :
    storeStored "r1" = some respStored ∧
    ((refine_results storeStored refineReq60 "t").1.request_id = respStored.request_id ∧
     (refine_results storeStored refineReq60 "t").1.warnings = respStored.warnings ∧
     (refine_results storeStored refineReq60 "t").2.1 refineReq60.request_id =
       some (refine_results storeStored refineReq60 "t").1 ∧
     (refine_results storeStored refineReq60 "t").2.2 = []) :=
  ⟨by decide, C4_frame storeStored refineReq60 "t" respStored (by decide)⟩

/-- C10: refine writes its result back under the same id, so successive
refine calls compound: each stored list after the second refine is a sublist
of the list after the first, which is a sublist of the original, and an offer
absent after the first refine is never present after the second, whatever the
second call's filters are. -/
theorem C10_refines_compound (s : Store) (rid t1 t2 : String)
    (f1 f2 : RefineFilters) (r : SearchResponse) (h : s rid = some r) :
    (refine_results s { request_id := rid, filters := f1 } t1).2.1 rid =
      some (refine_results s { request_id := rid, filters := f1 } t1).1 ∧
    ((refine_results s { request_id := rid, filters := f1 } t1).1.flights.Sublist r.flights ∧
     (refine_results s { request_id := rid, filters := f1 } t1).1.hotels.Sublist r.hotels ∧
     (refine_results s { request_id := rid, filters := f1 } t1).1.activities.Sublist r.activities) ∧
    (refine_results (refine_results s { request_id := rid, filters := f1 } t1).2.1
        { request_id := rid, filters := f2 } t2).2.1 rid =
      some (refine_results (refine_results s { request_id := rid, filters := f1 } t1).2.1
        { request_id := rid, filters := f2 } t2).1 ∧
    ((refine_results (refine_results s { request_id := rid, filters := f1 } t1).2.1
        { request_id := rid, filters := f2 } t2).1.flights.Sublist
       (refine_results s { request_id := rid, filters := f1 } t1).1.flights ∧
     (refine_results (refine_results s { request_id := rid, filters := f1 } t1).2.1
        { request_id := rid, filters := f2 } t2).1.hotels.Sublist
       (refine_results s { request_id := rid, filters := f1 } t1).1.hotels ∧
     (refine_results (refine_results s { request_id := rid, filters := f1 } t1).2.1
        { request_id := rid, filters := f2 } t2).1.activities.Sublist
       (refine_results s { request_id := rid, filters := f1 } t1).1.activities) ∧
    ((∀ x, x ∉ (refine_results s { request_id := rid, filters := f1 } t1).1.flights →
        x ∉ (refine_results (refine_results s { request_id := rid, filters := f1 } t1).2.1
              { request_id := rid, filters := f2 } t2).1.flights) ∧
     (∀ x, x ∉ (refine_results s { request_id := rid, filters := f1 } t1).1.hotels →
        x ∉ (refine_results (refine_results s { request_id := rid, filters := f1 } t1).2.1
              { request_id := rid, filters := f2 } t2).1.hotels) ∧
     (∀ x, x ∉ (refine_results s { request_id := rid, filters := f1 } t1).1.activities →
        x ∉ (refine_results (refine_results s { request_id := rid, filters := f1 } t1).2.1
              { request_id := rid, filters := f2 } t2).1.activities)) := by
  have h1 : s ({ request_id := rid, filters := f1 } : RefineRequest).request_id = some r := h
  have hup1 := refine_store_update s { request_id := rid, filters := f1 } t1 r h1
  have h2 : (refine_results s { request_id := rid, filters := f1 } t1).2.1
      ({ request_id := rid, filters := f2 } : RefineRequest).request_id =
      some (refine_results s { request_id := rid, filters := f1 } t1).1 := hup1
  have hup2 := refine_store_update _ { request_id := rid, filters := f2 } t2 _ h2
  have sf2 := refine_flights_sublist _ { request_id := rid, filters := f2 } t2 _ h2
  have sh2 := refine_hotels_sublist _ { request_id := rid, filters := f2 } t2 _ h2
  have sa2 := refine_activities_sublist _ { request_id := rid, filters := f2 } t2 _ h2
  refine ⟨hup1,
    ⟨refine_flights_sublist s _ t1 r h1, refine_hotels_sublist s _ t1 r h1,
     refine_activities_sublist s _ t1 r h1⟩,
    hup2, ⟨sf2, sh2, sa2⟩,
    ⟨fun x hx hmem => hx (sf2.subset hmem),
     fun x hx hmem => hx (sh2.subset hmem),
     fun x hx hmem => hx (sa2.subset hmem)⟩⟩

/-- C10 witness: the compounding property holds concretely for a first refine
with a 60-unit ceiling followed by an unfiltered refine. -/
theorem C10_refines_compound_witness :
    storeStored "r1" = some respStored ∧
    ((refine_results storeStored { request_id := "r1", filters := refineReq60.filters } "t1").2.1 "r1" =
       some (refine_results storeStored { request_id := "r1", filters := refineReq60.filters } "t1").1 ∧
     ((refine_results storeStored { request_id := "r1", filters := refineReq60.filters } "t1").1.flights.Sublist respStored.flights ∧
      (refine_results storeStored { request_id := "r1", filters := refineReq60.filters } "t1").1.hotels.Sublist respStored.hotels ∧
      (refine_results storeStored { request_id := "r1", filters := refineReq60.filters } "t1").1.activities.Sublist respStored.activities) ∧
     (refine_results (refine_results storeStored { request_id := "r1", filters := refineReq60.filters } "t1").2.1
         { request_id := "r1", filters := emptyRefineFilters } "t2").2.1 "r1" =
       some (refine_results (refine_results storeStored { request_id := "r1", filters := refineReq60.filters } "t1").2.1
         { request_id := "r1", filters := emptyRefineFilters } "t2").1 ∧
     ((refine_results (refine_results storeStored { request_id := "r1", filters := refineReq60.filters } "t1").2.1
         { request_id := "r1", filters := emptyRefineFilters } "t2").1.flights.Sublist
        (refine_results storeStored { request_id := "r1", filters := refineReq60.filters } "t1").1.flights ∧
      (refine_results (refine_results storeStored { request_id := "r1", filters := refineReq60.filters } "t1").2.1
         { request_id := "r1", filters := emptyRefineFilters } "t2").1.hotels.Sublist
        (refine_results storeStored { request_id := "r1", filters := refineReq60.filters } "t1").1.hotels ∧
      (refine_results (refine_results storeStored { request_id := "r1", filters := refineReq60.filters } "t1").2.1
         { request_id := "r1", filters := emptyRefineFilters } "t2").1.activities.Sublist
        (refine_results storeStored { request_id := "r1", filters := refineReq60.filters } "t1").1.activities) ∧
     ((∀ x, x ∉ (refine_results storeStored { request_id := "r1", filters := refineReq60.filters } "t1").1.flights →
         x ∉ (refine_results (refine_results storeStored { request_id := "r1", filters := refineReq60.filters } "t1").2.1
               { request_id := "r1", filters := emptyRefineFilters } "t2").1.flights) ∧
      (∀ x, x ∉ (refine_results storeStored { request_id := "r1", filters := refineReq60.filters } "t1").1.hotels →
         x ∉ (refine_results (refine_results storeStored { request_id := "r1", filters := refineReq60.filters } "t1").2.1
               { request_id := "r1", filters := emptyRefineFilters } "t2").1.hotels) ∧
      (∀ x, x ∉ (refine_results storeStored { request_id := "r1", filters := refineReq60.filters } "t1").1.activities →
         x ∉ (refine_results (refine_results storeStored { request_id := "r1", filters := refineReq60.filters } "t1").2.1
               { request_id := "r1", filters := emptyRefineFilters } "t2").1.activities))) :=
  ⟨by decide,
   C10_refines_compound storeStored "r1" "t1" "t2" refineReq60.filters
     emptyRefineFilters respStored (by decide)⟩

/-- C8: when the supplied check-out date is not strictly after the check-in
date, `get_hotels` silently advances the effective check-out to check-in plus
one day before the provider call (and in particular equal dates yield a
check-out one day later); the repair is total, no error path exists. -/
theorem C8_checkout_repair :
    (∀ check_in check_out : ℤ, check_out ≤ check_in →
       hotel_effective_check_out check_in check_out = check_in + 1) ∧
    (∀ check_in : ℤ,
       hotel_effective_check_out check_in check_in = check_in + 1) := by
  constructor
  · intro ci co h
    simp [hotel_effective_check_out, h]
  · intro ci
    simp [hotel_effective_check_out]

/-- C8 witness: at the ordinal of an equal check-in/check-out pair the
effective check-out is the next day. -/
theorem C8_checkout_repair_witness :
    (737790 : ℤ) ≤ 737790 ∧
    hotel_effective_check_out 737790 737790 = 737790 + 1 :=
  ⟨le_refl _, C8_checkout_repair.1 737790 737790 (le_refl _)⟩

/-- Concrete raw hotel entry whose star rating and nightly base are 0. -/
def hotelEntryZero : AmadeusHotelEntry :=
  { name := some "Hotel Zero"
  , price_total := some 120
  , currency := some "usd"
  , nightly_base := some 0
  , rating := some 0
  , latitude := none
  , longitude := none
  , amenities := []
  , cancellation := none
  , booking_url := none }

/-- Concrete raw activity entry whose rating is 0. -/
def activityEntryZero : AmadeusActivityEntry :=
  { name := some "Tour Zero"
  , amount := some 30
  , currencyCode := some "USD"
  , bookingLink := none
  , rating := some 0
  , shortDescription := none
  , latitude := none
  , longitude := none }

/-- C9: normalization treats zero as "not provided": a raw hotel star rating
of 0 yields an absent `star_rating`, a raw nightly price of 0 yields an
absent `nightly_price`, and a raw activity rating of 0 yields an absent
`rating`. -/
theorem C9_zero_means_absent :
    (∀ (rid dn : String) (idx : ℕ) (e : AmadeusHotelEntry), e.rating = some 0 →
       (normalizeHotel rid dn idx (format_hotel_offer e)).star_rating = none) ∧
    (∀ (rid dn : String) (idx : ℕ) (e : AmadeusHotelEntry), e.nightly_base = some 0 →
       (normalizeHotel rid dn idx (format_hotel_offer e)).nightly_price = none) ∧
    (∀ (rid dn : String) (idx : ℕ) (a : AmadeusActivityEntry), a.rating = some 0 →
       (normalizeActivity rid dn idx (format_activity a)).rating = none) := by
  refine ⟨?_, ?_, ?_⟩ <;> intro rid dn idx e he <;>
    simp [normalizeHotel, normalizeActivity, format_hotel_offer, format_activity,
      as_float, he]

/-- C9 witness: the three absences hold on the concrete zero-valued raw
entries. -/
theorem C9_zero_means_absent_witness :
    hotelEntryZero.rating = some 0 ∧
    hotelEntryZero.nightly_base = some 0 ∧
    activityEntryZero.rating = some 0 ∧
    (normalizeHotel "r" "d" 0 (format_hotel_offer hotelEntryZero)).star_rating = none ∧
    (normalizeHotel "r" "d" 0 (format_hotel_offer hotelEntryZero)).nightly_price = none ∧
    (normalizeActivity "r" "d" 0 (format_activity activityEntryZero)).rating = none :=
  ⟨rfl, rfl, rfl,
   C9_zero_means_absent.1 "r" "d" 0 hotelEntryZero rfl,
   C9_zero_means_absent.2.1 "r" "d" 0 hotelEntryZero rfl,
   C9_zero_means_absent.2.2 "r" "d" 0 activityEntryZero rfl⟩

/-- Once the cursor has passed the end of the pool it never re-enters it, so
the slot value depends only on the day and slot index. -/
theorem itinerarySlot_of_ge (dn : String) (pool : List String) (day slot : ℕ)
    {c1 c2 : ℕ} (h1 : pool.length ≤ c1) (h2 : pool.length ≤ c2) :
    itinerarySlot dn pool day slot c1 = itinerarySlot dn pool day slot c2 := by
  rw [itinerarySlot, itinerarySlot, dif_neg (by omega), dif_neg (by omega)]

/-- One itinerary day evaluates to the two slot values at the cursor and the
dinner entry, with the cursor advancing to `min (c + 2) pool.length`. -/
theorem buildDay_eq (dn : String) (pool : List String) (i c : ℕ)
    (hc : c ≤ pool.length) :
    buildDay dn pool i c =
      ([itinerarySlot dn pool i 0 c, itinerarySlot dn pool i 1 (c + 1),
        "Dinner at a local restaurant"], min (c + 2) pool.length) := by
  unfold buildDay takeSlot itinerarySlot
  by_cases h0 : c < pool.length
  · by_cases h1 : c + 1 < pool.length
    · simp [h0, h1]
      omega
    · simp [h0, h1]
      omega
  · have h1 : ¬ (c + 1 < pool.length) := by omega
    simp [h0, h1]
    omega

/-- Closed form of the itinerary loop: starting at day number `i` with
cursor `c`, day `k` of the remaining `n` is day `i + k` with slot values at
overall positions `c + 2k` and `c + 2k + 1`. -/
theorem buildItineraryGo_eq (dn : String) (pool : List String) :
    ∀ (n i c : ℕ), c ≤ pool.length →
      buildItineraryGo dn pool n i c =
        (List.range n).map (fun k =>
          { day := i + k
          , activities := [itinerarySlot dn pool (i + k) 0 (c + 2 * k),
                           itinerarySlot dn pool (i + k) 1 (c + 2 * k + 1),
                           "Dinner at a local restaurant"] }) := by
  intro n
  induction n with
  | zero =>
    intro i c _
    simp [buildItineraryGo]
  | succ m ih =>
    intro i c hc
    have hd := buildDay_eq dn pool i c hc
    have hc2 : min (c + 2) pool.length ≤ pool.length := by omega
    simp only [buildItineraryGo]
    rw [hd, ih (i + 1) (min (c + 2) pool.length) hc2, List.range_succ_eq_map]
    simp only [List.map_cons, List.map_map]
    congr 1
    refine List.map_congr_left ?_
    intro k _
    simp only [Function.comp_apply]
    by_cases hlen : c + 2 ≤ pool.length
    · have hm : min (c + 2) pool.length = c + 2 := by omega
      have e1 : i + 1 + k = i + (k + 1) := by omega
      have e2 : c + 2 + 2 * k = c + 2 * (k + 1) := by omega
      rw [hm, e1, e2]
    · have hm : min (c + 2) pool.length = pool.length := by omega
      have e1 : i + 1 + k = i + (k + 1) := by omega
      rw [hm, e1]
      congr 1
      rw [itinerarySlot_of_ge dn pool (i + (k + 1)) 0
            (by omega : pool.length ≤ pool.length + 2 * k)
            (by omega : pool.length ≤ c + 2 * (k + 1)),
          itinerarySlot_of_ge dn pool (i + (k + 1)) 1
            (by omega : pool.length ≤ pool.length + 2 * k + 1)
            (by omega : pool.length ≤ c + 2 * (k + 1) + 1)]

/-- Sum of the constant 2 over `range n`. -/
theorem sum_map_two_range (n : ℕ) :
    ((List.range n).map (fun _ => 2)).sum = 2 * n := by
  induction n with
  | zero => simp
  | succ m ih =>
    rw [List.range_succ]
    simp [ih]
    omega

/-- C7: the itinerary over any destination name, (deduplicated) activity
pool and day count N ≥ 1 is exactly N days, numbered 1..N in order; day k+1
holds the slot values at overall cursor positions 2k and 2k+1 — the pool
element there while the pool lasts, afterwards the deterministic placeholder
for that day and slot — followed by the fixed dinner entry; hence the
non-dinner slot count is 2 per day and 2 × N in total, whatever the pool
size. -/
theorem C7_itinerary (dn : String) (pool : List String) (N : ℕ)
    (hN : 1 ≤ N) :
    buildItinerary dn pool N =
      (List.range N).map (fun k =>
        { day := k + 1
        , activities := [itinerarySlot dn pool (k + 1) 0 (2 * k),
                         itinerarySlot dn pool (k + 1) 1 (2 * k + 1),
                         "Dinner at a local restaurant"] }) ∧
    (buildItinerary dn pool N).length = N ∧
    ((buildItinerary dn pool N).map (fun d => d.activities.length - 1)).sum =
      2 * N := by
  have he := buildItineraryGo_eq dn pool N 1 0 (Nat.zero_le _)
  have hmain : buildItinerary dn pool N =
      (List.range N).map (fun k =>
        { day := k + 1
        , activities := [itinerarySlot dn pool (k + 1) 0 (2 * k),
                         itinerarySlot dn pool (k + 1) 1 (2 * k + 1),
                         "Dinner at a local restaurant"] }) := by
    rw [buildItinerary, he]
    refine List.map_congr_left ?_
    intro k _
    have e1 : 1 + k = k + 1 := by omega
    have e2 : 0 + 2 * k = 2 * k := by omega
    rw [e1, e2]
  refine ⟨hmain, ?_, ?_⟩
  · rw [hmain]
    simp
  · rw [hmain, List.map_map]
    have hconst : ((fun (d : DayPlan) => d.activities.length - 1) ∘ fun k =>
        ({ day := k + 1
         , activities := [itinerarySlot dn pool (k + 1) 0 (2 * k),
                          itinerarySlot dn pool (k + 1) 1 (2 * k + 1),
                          "Dinner at a local restaurant"] } : DayPlan)) =
        fun _ => 2 := by
      funext k
      simp
    rw [hconst, sum_map_two_range]

/-- C7 witness: the spec scenario — pool ["A","B"], 2 days — gives day 1 the
two pool items and day 2 two placeholders, each day closed by the dinner
entry, with 4 non-dinner slots in total. -/
theorem C7_itinerary_witness :
    1 ≤ 2 ∧
    buildItinerary "Paris" ["A", "B"] 2 =
      [{ day := 1, activities := ["A", "B", "Dinner at a local restaurant"] },
       { day := 2, activities :=
          ["Self-guided exploration in Paris (Day 2, stop 1)",
           "Self-guided exploration in Paris (Day 2, stop 2)",
           "Dinner at a local restaurant"] }] ∧
    ((buildItinerary "Paris" ["A", "B"] 2).map
        (fun d => d.activities.length - 1)).sum = 2 * 2 := by
  have h := C7_itinerary "Paris" ["A", "B"] 2 (by decide)
  exact ⟨by decide, h.1.trans (by decide), h.2.2⟩

/-- Every position of the normalized flight list scores by the rank-decay
formula. -/
theorem normalizeFlights_score (rid : String) (raw : List RawFlight) (i : ℕ)
    (hi : i < (normalizeFlights rid raw).length) :
    ((normalizeFlights rid raw).getD i dummyFlight).score =
      max 1 (95 - 5 * (i : ℚ)) := by
  have hr : i < raw.length := by
    simpa [normalizeFlights] using hi
  have he : (normalizeFlights rid raw).getD i dummyFlight =
      normalizeFlight rid i (raw.get ⟨i, hr⟩) := by
    rw [List.getD_eq_get (normalizeFlights rid raw) dummyFlight hi]
    simp [normalizeFlights, List.get_eq_getElem, List.getElem_map, List.getElem_enum]
  rw [he]
  simp [normalizeFlight]

/-- Score of one normalized hotel: `star × 20` when a star rating is
present, the rank-decay formula otherwise. -/
theorem normalizeHotel_score (rid dn : String) (i : ℕ) (h : RawHotel) :
    (∀ r, (normalizeHotel rid dn i h).star_rating = some r →
       (normalizeHotel rid dn i h).score = r * 20) ∧
    ((normalizeHotel rid dn i h).star_rating = none →
       (normalizeHotel rid dn i h).score = max 1 (88 - 4 * (i : ℚ))) := by
  by_cases hp : h.rating > 0
  · constructor
    · intro r hsome
      have hr0 : r = h.rating := by
        simpa [normalizeHotel, hp] using hsome.symm
      have hne : h.rating ≠ 0 := ne_of_gt hp
      simp [normalizeHotel, hp, pyTruthyQ, hne, hr0]
    · intro hnone
      simp [normalizeHotel, hp] at hnone
  · constructor
    · intro r hsome
      simp [normalizeHotel, hp] at hsome
    · intro _
      simp [normalizeHotel, hp, pyTruthyQ]

/-- Score of one normalized activity: `rating × 20` when a rating is
present, the rank-decay formula otherwise. -/
theorem normalizeActivity_score (rid dn : String) (i : ℕ) (a : RawActivity) :
    (∀ r, (normalizeActivity rid dn i a).rating = some r →
       (normalizeActivity rid dn i a).score = r * 20) ∧
    ((normalizeActivity rid dn i a).rating = none →
       (normalizeActivity rid dn i a).score = max 1 (86 - 3 * (i : ℚ))) := by
  by_cases hp : a.rating > 0
  · constructor
    · intro r hsome
      have hr0 : r = a.rating := by
        simpa [normalizeActivity, hp] using hsome.symm
      have hne : a.rating ≠ 0 := ne_of_gt hp
      simp [normalizeActivity, hp, pyTruthyQ, hne, hr0]
    · intro hnone
      simp [normalizeActivity, hp] at hnone
  · constructor
    · intro r hsome
      simp [normalizeActivity, hp] at hsome
    · intro _
      simp [normalizeActivity, hp, pyTruthyQ]

/-- Every position of the normalized hotel list scores `star × 20` when a
star rating is present and by the rank-decay formula otherwise. -/
theorem normalizeHotels_score (rid dn : String) (raw : List RawHotel) (i : ℕ)
    (hi : i < (normalizeHotels rid dn raw).length) :
    (∀ r, ((normalizeHotels rid dn raw).getD i dummyHotel).star_rating = some r →
       ((normalizeHotels rid dn raw).getD i dummyHotel).score = r * 20) ∧
    (((normalizeHotels rid dn raw).getD i dummyHotel).star_rating = none →
       ((normalizeHotels rid dn raw).getD i dummyHotel).score =
         max 1 (88 - 4 * (i : ℚ))) := by
  have hr : i < raw.length := by
    simpa [normalizeHotels] using hi
  have he : (normalizeHotels rid dn raw).getD i dummyHotel =
      normalizeHotel rid dn i (raw.get ⟨i, hr⟩) := by
    rw [List.getD_eq_get (normalizeHotels rid dn raw) dummyHotel hi]
    simp [normalizeHotels, List.get_eq_getElem, List.getElem_map, List.getElem_enum]
  rw [he]
  exact normalizeHotel_score rid dn i (raw.get ⟨i, hr⟩)

/-- Every position of the normalized activity list scores `rating × 20` when
a rating is present and by the rank-decay formula otherwise. -/
theorem normalizeActivities_score (rid dn : String) (raw : List RawActivity)
    (i : ℕ) (hi : i < (normalizeActivities rid dn raw).length) :
    (∀ r, ((normalizeActivities rid dn raw).getD i dummyActivity).rating = some r →
       ((normalizeActivities rid dn raw).getD i dummyActivity).score = r * 20) ∧
    (((normalizeActivities rid dn raw).getD i dummyActivity).rating = none →
       ((normalizeActivities rid dn raw).getD i dummyActivity).score =
         max 1 (86 - 3 * (i : ℚ))) := by
  have hr : i < raw.length := by
    simpa [normalizeActivities] using hi
  have he : (normalizeActivities rid dn raw).getD i dummyActivity =
      normalizeActivity rid dn i (raw.get ⟨i, hr⟩) := by
    rw [List.getD_eq_get (normalizeActivities rid dn raw) dummyActivity hi]
    simp [normalizeActivities, List.get_eq_getElem, List.getElem_map, List.getElem_enum]
  rw [he]
  exact normalizeActivity_score rid dn i (raw.get ⟨i, hr⟩)

/-- The flight list of a search response is always a normalized-and-scored
flight list (of the raw provider result, or of the empty list when the
destination was unresolvable). -/
theorem search_travel_flights (env : Env) (s : Store) (rid now : String)
    (req : TripRequest) :
    ∃ raw, (search_travel env s rid now req).1.flights =
      normalizeFlights rid raw := by
  cases hrd : (resolveDestination env
      ((truthyS req.destination.iata).map String.toUpper)
      (destinationName req)).1 with
  | none => exact ⟨[], by simp [search_travel, hrd, normalizeFlights]⟩
  | some d =>
    exact ⟨env.searchFlightOffers (safe_iata req.origin "LON") d
        req.dates.start_date,
      by simp [search_travel, hrd]⟩

/-- The hotel list of a search response is always a normalized-and-scored
hotel list. -/
theorem search_travel_hotels (env : Env) (s : Store) (rid now : String)
    (req : TripRequest) :
    ∃ raw, (search_travel env s rid now req).1.hotels =
      normalizeHotels rid (destinationName req) raw := by
  cases hrd : (resolveDestination env
      ((truthyS req.destination.iata).map String.toUpper)
      (destinationName req)).1 with
  | none => exact ⟨[], by simp [search_travel, hrd, normalizeHotels]⟩
  | some d =>
    exact ⟨env.getHotels d req.dates.start_date req.dates.end_date
        req.travelers.adults,
      by simp [search_travel, hrd]⟩

/-- The activity list of a search response is always a normalized-and-scored
activity list. -/
theorem search_travel_activities (env : Env) (s : Store) (rid now : String)
    (req : TripRequest) :
    ∃ raw, (search_travel env s rid now req).1.activities =
      normalizeActivities rid (destinationName req) raw := by
  cases hrd : (resolveDestination env
      ((truthyS req.destination.iata).map String.toUpper)
      (destinationName req)).1 with
  | none => exact ⟨[], by simp [search_travel, hrd, normalizeActivities]⟩
  | some d =>
    exact ⟨(searchActivitiesRaw env req).1, by simp [search_travel, hrd]⟩

/-- C5: in every aggregated response, the flight at 0-based rank i scores
`max(1, 95 − 5i)`; a hotel scores `star × 20` when its star rating is
present and `max(1, 88 − 4i)` otherwise; an activity scores `rating × 20`
when its rating is present and `max(1, 86 − 3i)` otherwise. -/
theorem C5_scoring (env : Env) (s : Store) (rid now : String)
    (req : TripRequest) :
    (∀ i, i < (search_travel env s rid now req).1.flights.length →
       ((search_travel env s rid now req).1.flights.getD i dummyFlight).score =
         max 1 (95 - 5 * (i : ℚ))) ∧
    (∀ i, i < (search_travel env s rid now req).1.hotels.length →
       (∀ r, ((search_travel env s rid now req).1.hotels.getD i dummyHotel).star_rating = some r →
          ((search_travel env s rid now req).1.hotels.getD i dummyHotel).score = r * 20) ∧
       (((search_travel env s rid now req).1.hotels.getD i dummyHotel).star_rating = none →
          ((search_travel env s rid now req).1.hotels.getD i dummyHotel).score =
            max 1 (88 - 4 * (i : ℚ)))) ∧
    (∀ i, i < (search_travel env s rid now req).1.activities.length →
       (∀ r, ((search_travel env s rid now req).1.activities.getD i dummyActivity).rating = some r →
          ((search_travel env s rid now req).1.activities.getD i dummyActivity).score = r * 20) ∧
       (((search_travel env s rid now req).1.activities.getD i dummyActivity).rating = none →
          ((search_travel env s rid now req).1.activities.getD i dummyActivity).score =
            max 1 (86 - 3 * (i : ℚ)))) := by
  obtain ⟨fraw, hf⟩ := search_travel_flights env s rid now req
  obtain ⟨hraw, hh⟩ := search_travel_hotels env s rid now req
  obtain ⟨araw, ha⟩ := search_travel_activities env s rid now req
  refine ⟨?_, ?_, ?_⟩
  · intro i hi
    rw [hf] at hi ⊢
    exact normalizeFlights_score rid fraw i hi
  · intro i hi
    rw [hh] at hi ⊢
    exact normalizeHotels_score rid (destinationName req) hraw i hi
  · intro i hi
    rw [ha] at hi ⊢
    exact normalizeActivities_score rid (destinationName req) araw i hi

/-- Concrete test segment. -/
def segTest : Segment :=
  { from_ := "LON"
  , to_ := "PAR"
  , depart_at := "2025-05-01T09:00:00"
  , arrive_at := "2025-05-01T12:00:00"
  , carrier := "ZZ"
  , flight_number := none }

/-- Concrete raw flight at a given price. -/
def rawFlightTest (p : ℚ) : RawFlight :=
  { price_total := p
  , currency := "USD"
  , segments := [segTest]
  , refundable := none
  , fare_rules_summary := some "Live fare from Amadeus" }

/-- Concrete raw hotel with a 4-star rating. -/
def rawHotelRated : RawHotel :=
  { name := "H1"
  , total_amount := 200
  , nightly_amount := some 100
  , currency := "USD"
  , rating := 4
  , latitude := none
  , longitude := none
  , amenities := []
  , cancellation := none
  , booking_url := none }

/-- Concrete raw hotel with no star rating (0). -/
def rawHotelUnrated : RawHotel :=
  { rawHotelRated with name := "H2", rating := 0 }

/-- Concrete raw activity rated 5. -/
def rawActivityRated : RawActivity :=
  { title := "T1"
  , amount := 30
  , currency := "USD"
  , booking_url := none
  , rating := 5
  , description := none
  , latitude := none
  , longitude := none }

/-- Concrete raw activity with no rating (0). -/
def rawActivityUnrated : RawActivity :=
  { rawActivityRated with title := "T2", rating := 0 }

/-- Concrete provider environment: three flights, a rated and an unrated
hotel, a rated and an unrated activity. -/
def envTest : Env :=
  { getLocation := fun _ => some
      { name := some "Paris", iataCode := some "PAR"
      , latitude := some 48, longitude := some 2 }
  , searchFlightOffers := fun _ _ _ =>
      [rawFlightTest 100, rawFlightTest 120, rawFlightTest 140]
  , getHotels := fun _ _ _ _ => [rawHotelRated, rawHotelUnrated]
  , getActivities := fun _ _ => [rawActivityRated, rawActivityUnrated] }

/-- Concrete trip request with an explicit destination IATA code. -/
def reqTest : TripRequest :=
  { origin := { iata := some "LON", city := some "London", country := none
              , lat := none, lng := none }
  , destination := { iata := some "PAR", city := some "Paris", country := none
                   , lat := some 48, lng := some 2 }
  , dates := { start_date := "2025-05-01", end_date := "2025-05-03" }
  , travelers := { adults := 1, children_ages := [] }
  , budget := none }

/-- C5 witness: on the concrete environment the three flights score 95, 90,
85; the 4-star hotel scores 80 and the unrated second hotel 84; the 5-rated
activity scores 100 and the unrated second activity 83. -/
theorem C5_scoring_witness :
    ((search_travel envTest emptyStore "rid" "now" reqTest).1.flights.getD 0 dummyFlight).score = 95 ∧
    ((search_travel envTest emptyStore "rid" "now" reqTest).1.flights.getD 1 dummyFlight).score = 90 ∧
    ((search_travel envTest emptyStore "rid" "now" reqTest).1.flights.getD 2 dummyFlight).score = 85 ∧
    ((search_travel envTest emptyStore "rid" "now" reqTest).1.hotels.getD 0 dummyHotel).score = 80 ∧
    ((search_travel envTest emptyStore "rid" "now" reqTest).1.hotels.getD 1 dummyHotel).score = 84 ∧
    ((search_travel envTest emptyStore "rid" "now" reqTest).1.activities.getD 0 dummyActivity).score = 100 ∧
    ((search_travel envTest emptyStore "rid" "now" reqTest).1.activities.getD 1 dummyActivity).score = 83 := by
  obtain ⟨hf, hh, ha⟩ := C5_scoring envTest emptyStore "rid" "now" reqTest
  refine ⟨?_, ?_, ?_, ?_, ?_, ?_, ?_⟩
  · rw [hf 0 (by decide)]
    norm_num [max_def]
  · rw [hf 1 (by decide)]
    norm_num [max_def]
  · rw [hf 2 (by decide)]
    norm_num [max_def]
  · rw [(hh 0 (by decide)).1 4 (by decide)]
    norm_num
  · rw [(hh 1 (by decide)).2 (by decide)]
    norm_num [max_def]
  · rw [(ha 0 (by decide)).1 5 (by decide)]
    norm_num
  · rw [(ha 1 (by decide)).2 (by decide)]
    norm_num [max_def]

/-- C6: when the request carries no destination IATA code and neither the
live location lookup nor the static fallback table yields one, the search
stores and returns a response with all three offer lists empty and exactly
one warning naming the unresolved destination, and no flight, hotel or
activity provider fetch is issued (the trace is the single location
lookup). -/
theorem C6_unresolvable_destination (env : Env) (s : Store) (rid now : String)
    (req : TripRequest)
    (hiata : truthyS req.destination.iata = none)
    (hlive : (env.getLocation (destinationName req)).bind
        (fun l => truthyS l.iataCode) = none)
    (hfb : fallback_iata_for_city (destinationName req) = none) :
    (search_travel env s rid now req).1.flights = [] ∧
    (search_travel env s rid now req).1.hotels = [] ∧
    (search_travel env s rid now req).1.activities = [] ∧
    (search_travel env s rid now req).1.warnings =
      ["Could not resolve destination IATA for \x27" ++ destinationName req ++
        "\x27. Set destination.iata explicitly for better provider matches."] ∧
    (search_travel env s rid now req).2.1 rid =
      some (search_travel env s rid now req).1 ∧
    (search_travel env s rid now req).2.2 =
      [FetchEvent.locationLookup (destinationName req)] ∧
    (∀ e ∈ (search_travel env s rid now req).2.2,
      e.isProviderFetch = false) := by
  have hrd : resolveDestination env
      ((truthyS req.destination.iata).map String.toUpper)
      (destinationName req) =
      (none,
       ["Could not resolve destination IATA for \x27" ++ destinationName req ++
         "\x27. Set destination.iata explicitly for better provider matches."],
       [FetchEvent.locationLookup (destinationName req)]) := by
    cases hloc : env.getLocation (destinationName req) with
    | none => simp [resolveDestination, hiata, hloc, resolveFallback, hfb]
    | some l =>
      have hl : truthyS l.iataCode = none := by
        simpa [hloc] using hlive
      simp [resolveDestination, hiata, hloc, hl, resolveFallback, hfb]
  refine ⟨?_, ?_, ?_, ?_, ?_, ?_, ?_⟩ <;>
    simp [search_travel, hrd, storeInsert, FetchEvent.isProviderFetch]

/-- Concrete request whose destination has no IATA code and an unresolvable
city name. -/
def reqAtlantis : TripRequest :=
  { origin := { iata := some "LON", city := none, country := none
              , lat := none, lng := none }
  , destination := { iata := none, city := some "Atlantis", country := none
                   , lat := none, lng := none }
  , dates := { start_date := "2025-05-01", end_date := "2025-05-03" }
  , travelers := { adults := 1, children_ages := [] }
  , budget := none }

/-- Concrete environment whose location lookup always fails while the offer
providers would return data if asked. -/
def envNoLocation : Env :=
  { getLocation := fun _ => none
  , searchFlightOffers := fun _ _ _ => [rawFlightTest 100]
  , getHotels := fun _ _ _ _ => [rawHotelRated]
  , getActivities := fun _ _ => [rawActivityRated] }

/-- C6 witness: the short-circuit holds concretely for destination
"Atlantis" with a failing location lookup. -/
theorem C6_unresolvable_destination_witness :
    truthyS reqAtlantis.destination.iata = none ∧
    (envNoLocation.getLocation (destinationName reqAtlantis)).bind
        (fun l => truthyS l.iataCode) = none ∧
    fallback_iata_for_city (destinationName reqAtlantis) = none ∧
    ((search_travel envNoLocation emptyStore "rid6" "t6" reqAtlantis).1.flights = [] ∧
     (search_travel envNoLocation emptyStore "rid6" "t6" reqAtlantis).1.hotels = [] ∧
     (search_travel envNoLocation emptyStore "rid6" "t6" reqAtlantis).1.activities = [] ∧
     (search_travel envNoLocation emptyStore "rid6" "t6" reqAtlantis).1.warnings =
       ["Could not resolve destination IATA for \x27" ++ destinationName reqAtlantis ++
         "\x27. Set destination.iata explicitly for better provider matches."] ∧
     (search_travel envNoLocation emptyStore "rid6" "t6" reqAtlantis).2.1 "rid6" =
       some (search_travel envNoLocation emptyStore "rid6" "t6" reqAtlantis).1 ∧
     (search_travel envNoLocation emptyStore "rid6" "t6" reqAtlantis).2.2 =
       [FetchEvent.locationLookup (destinationName reqAtlantis)] ∧
     (∀ e ∈ (search_travel envNoLocation emptyStore "rid6" "t6" reqAtlantis).2.2,
       e.isProviderFetch = false)) :=
  ⟨rfl, rfl, by decide,
   C6_unresolvable_destination envNoLocation emptyStore "rid6" "t6"
     reqAtlantis rfl rfl (by decide)⟩
